import Mathlib

/-!
Verification of the MemoryRelay OpenClaw plugin's resilience and capture core.

The definitions below are a shallow embedding of the TypeScript sources:
* `src/unnamed/part_001` — the v0.6.0 plugin (circuit breaker, retry with
  exponential backoff, error classification, entity extraction, capture
  decision),
* `src/index.ts` — the gateway/status and auto-capture hook code.

Machine time (JavaScript `Date.now()`) is modelled as a natural number of
milliseconds passed explicitly to the functions that read the clock.
Errors are modelled by their message strings, since `classifyError` only
inspects `String(err.message || err)`.
-/

namespace MemoryRelay

/-! ## String utilities

`String.prototype.includes(pat)` is substring containment; we implement it
on the underlying character lists. -/

def startsWithL : List Char → List Char → Bool
  | [], _ => true
  | _ :: _, [] => false
  | a :: as, b :: bs => a == b && startsWithL as bs

def occursInL (pat : List Char) : List Char → Bool
  | [] => startsWithL pat []
  | c :: cs => startsWithL pat (c :: cs) || occursInL pat cs

/-- `msg.includes(pat)` from JavaScript. -/
def occursIn (msg pat : String) : Bool := occursInL pat.data msg.data

/-! ## Error classification (`classifyError`, src/unnamed/part_001 lines 144-156) -/

inductive ErrorType
  | auth
  | rateLimit
  | server
  | network
  | validation
deriving DecidableEq

/-- `classifyError` from src/unnamed/part_001: a chain of substring tests on
the error message, first match wins, defaulting to `SERVER`. -/
def classifyError (msg : String) : ErrorType :=
  if occursIn msg "401" || occursIn msg "403" then .auth
  else if occursIn msg "429" then .rateLimit
  else if occursIn msg "500" || occursIn msg "502" || occursIn msg "503" then .server
  else if occursIn msg "ECONNREFUSED" || occursIn msg "timeout" then .network
  else if occursIn msg "400" then .validation
  else .server

/-- The error message built by `doRequest` (src/unnamed/part_001 lines 258-264)
for a non-2xx response:
`MemoryRelay API error: ${status} ${statusText}` plus an optional
` - ${errorData.message}` suffix. -/
def mkErrorMessage (status : Nat) (statusText : String) (detail : Option String) : String :=
  "MemoryRelay API error: " ++ toString status ++ " " ++ statusText ++
    (match detail with
     | some m => " - " ++ m
     | none => "")

/-! ## Circuit breaker (src/unnamed/part_001 lines 91-134) -/

structure CBState where
  consecutiveFailures : Nat
  openUntil : Option Nat
deriving DecidableEq

/-- The state a `CircuitBreaker` is constructed with: counter 0, no deadline. -/
def CBState.initial : CBState := ⟨0, none⟩

/-- `isOpen()` reads the clock and may lazily reset the state.  The source
guards both branches with the JavaScript truthiness of `this.openUntil`, so a
deadline equal to `0` behaves like an unset deadline.  Returns the boolean
result together with the state after the call. -/
def isOpenCB (st : CBState) (now : Nat) : Bool × CBState :=
  match st.openUntil with
  | none => (false, st)
  | some u =>
    if u ≠ 0 ∧ now < u then (true, st)
    else if u ≠ 0 ∧ u ≤ now then (false, CBState.initial)
    else (false, st)

/-- `recordSuccess()`: reset counter and deadline unconditionally. -/
def recordSuccessCB (_st : CBState) : CBState := CBState.initial

/-- `recordFailure()` for a breaker configured with `maxFailures` and
`resetTimeoutMs`, invoked at time `now`. -/
def recordFailureCB (maxFailures resetTimeoutMs : Nat) (st : CBState) (now : Nat) : CBState :=
  let f := st.consecutiveFailures + 1
  if maxFailures ≤ f then ⟨f, some (now + resetTimeoutMs)⟩ else ⟨f, st.openUntil⟩

/-- A run of consecutive `recordFailure()` calls at the given times. -/
def applyFailures (maxFailures resetTimeoutMs : Nat) (st : CBState) (ts : List Nat) : CBState :=
  ts.foldl (recordFailureCB maxFailures resetTimeoutMs) st

/-! ## Retry executor (`requestWithRetry`, src/unnamed/part_001 lines 277-309)

An operation is modelled as a function from the invocation index (0-based)
to its outcome, errors being their message strings.  The trace records the
returned outcome, the number of invocations, the sleep durations requested,
and the sequence of breaker notifications made. -/

inductive BreakerEvent
  | success
  | failure
deriving DecidableEq

instance {ε α : Type} [DecidableEq ε] [DecidableEq α] : DecidableEq (Except ε α) := fun x y =>
  match x, y with
  | .ok a, .ok b =>
    if h : a = b then .isTrue (by rw [h]) else .isFalse (by simp [h])
  | .error a, .error b =>
    if h : a = b then .isTrue (by rw [h]) else .isFalse (by simp [h])
  | .ok _, .error _ => .isFalse (fun h => Except.noConfusion h)
  | .error _, .ok _ => .isFalse (fun h => Except.noConfusion h)

structure RetryTrace (α : Type) where
  result : Except String α
  calls : Nat
  sleeps : List Nat
  events : List BreakerEvent
deriving DecidableEq

/-- `x || d` on an optional numeric config field: JavaScript `||` replaces
both a missing value and a falsy `0` by the default. -/
def orDefault (x : Option Nat) (d : Nat) : Nat :=
  match x with
  | none => d
  | some n => if n = 0 then d else n

/-- The body of `requestWithRetry`'s `for` loop, from attempt index `attempt`
with `fuel` iterations remaining (`fuel = maxRetries + 1 - attempt` at the
top-level call, so the base case — the loop exhausting and rethrowing
`lastError` — is reached exactly when attempts run out). -/
def retryAux {α : Type} (op : Nat → Except String α) (maxRetries baseDelayMs : Nat)
    (attempt : Nat) (lastErr : String) : Nat → RetryTrace α
  | 0 => ⟨.error lastErr, 0, [], []⟩
  | fuel + 1 =>
    match op attempt with
    | .ok v => ⟨.ok v, 1, [], [.success]⟩
    | .error e =>
      if classifyError e = .auth then
        ⟨.error e, 1, [], [.failure]⟩
      else if attempt < maxRetries then
        let rest := retryAux op maxRetries baseDelayMs (attempt + 1) e fuel
        ⟨rest.result, rest.calls + 1, baseDelayMs * 2 ^ attempt :: rest.sleeps,
          .failure :: rest.events⟩
      else
        ⟨.error e, 1, [], [.failure]⟩

/-- `requestWithRetry(fn)`: effective `maxRetries`/`baseDelayMs` are the
configured values with JavaScript `|| 3` and `|| 1000` fallbacks. -/
def requestWithRetry {α : Type} (op : Nat → Except String α)
    (maxRetriesCfg baseDelayMsCfg : Option Nat) : RetryTrace α :=
  let maxRetries := orDefault maxRetriesCfg 3
  let baseDelayMs := orDefault baseDelayMsCfg 1000
  retryAux op maxRetries baseDelayMs 0 "" (maxRetries + 1)

structure RetryConfig where
  enabled : Bool
  maxRetries : Nat
  baseDelayMs : Nat
deriving DecidableEq

/-- `request` (src/unnamed/part_001 lines 269-275): with retry enabled it
delegates to `requestWithRetry`; otherwise it runs `doRequest()` exactly once.
`doRequest` itself contains no breaker calls, so the plain path produces no
breaker events. -/
def request {α : Type} (op : Nat → Except String α) (rc : Option RetryConfig) : RetryTrace α :=
  match rc with
  | some c =>
    if c.enabled then requestWithRetry op (some c.maxRetries) (some c.baseDelayMs)
    else ⟨op 0, 1, [], []⟩
  | none => ⟨op 0, 1, [], []⟩

/-! ## Entity extraction (`extractEntities`, src/unnamed/part_001 lines 158-192)

Each regular expression of the source is embedded as an executable matcher on
character lists.  A matcher receives the character preceding the current
position (for word-boundary tests) and the remaining input, and returns the
matched characters together with the rest of the input.  The `g`-flag `exec`
loop is `scanAux`: left-to-right scan, resuming right after each match. -/

def isWordChar (c : Char) : Bool := c.isAlpha || c.isDigit || c == '_'

def isWordOpt : Option Char → Bool
  | none => false
  | some c => isWordChar c

/-- Word boundary between two adjacent positions, either of which may be off
the end of the input. -/
def boundaryB (a b : Option Char) : Bool := isWordOpt a != isWordOpt b

def isAlnumChar (c : Char) : Bool := c.isAlpha || c.isDigit

/-- Consume a case-insensitive literal from the front of the input, returning
the consumed original characters and the rest. -/
def eatCI : List Char → List Char → Option (List Char × List Char)
  | [], s => some ([], s)
  | _ :: _, [] => none
  | p :: ps, c :: cs =>
    if p.toLower == c.toLower then (eatCI ps cs).map (fun pr => (c :: pr.1, pr.2))
    else none

/-- Ordered alternation of case-insensitive literals: the alternatives are
tried left to right, as a JavaScript regex does. -/
def altCI : List String → List Char → Option (List Char × List Char)
  | [], _ => none
  | w :: ws, s =>
    match eatCI w.data s with
    | some r => some r
    | none => altCI ws s

/-- Matcher for the api-key pattern of the source (flag `i`): a word boundary,
one of mem/nr/sk/pk/api, an underscore, one of prod/test/dev/live, an
underscore, and 16 to 64 alphanumeric characters up to a word boundary.
The trailing boundary after the greedy alphanumeric run forces the run to be
maximal and at most 64 long: any shorter take leaves alphanumeric — hence
word — characters on both sides of the boundary position, so backtracking
inside the run can never succeed. -/
def apiKeyMatchAt (prev : Option Char) (s : List Char) : Option (List Char × List Char) :=
  if boundaryB prev s.head? then
    match altCI ["mem", "nr", "sk", "pk", "api"] s with
    | some (m1, r1) =>
      match r1 with
      | '_' :: r2 =>
        match altCI ["prod", "test", "dev", "live"] r2 with
        | some (m2, r3) =>
          match r3 with
          | '_' :: r4 =>
            let run := r4.takeWhile isAlnumChar
            let rest := r4.dropWhile isAlnumChar
            if 16 ≤ run.length ∧ run.length ≤ 64 ∧ isWordOpt rest.head? = false then
              some (m1 ++ '_' :: (m2 ++ '_' :: run), rest)
            else none
          | _ => none
        | none => none
      | _ => none
    | none => none
  else none

def isLocalChar (c : Char) : Bool :=
  c.isAlpha || c.isDigit || c == '.' || c == '_' || c == '%' || c == '+' || c == '-'

def isDomChar (c : Char) : Bool := c.isAlpha || c.isDigit || c == '.' || c == '-'

/-- The source's TLD character class is `[A-Z|a-z]`, which contains the
literal bar character. -/
def isTldChar (c : Char) : Bool := c.isAlpha || c == '|'

/-- Backtracking search for the TLD part (at least two TLD-class characters up
to a word boundary) at the front of `area`: the greedy length is tried first,
then shorter lengths down to the minimum of 2. -/
def tldSearch (area : List Char) : Nat → Option Nat
  | 0 => none
  | 1 => none
  | t + 2 =>
    let taken := area.take (t + 2)
    match taken.getLast? with
    | none => none
    | some lastc =>
      if taken.length == t + 2 && boundaryB (some lastc) area[t + 2]? then some (t + 2)
      else tldSearch area (t + 1)

/-- Backtracking search for domain-dot-TLD on the text after the `@`: the
greedy domain run gives characters back from the right, so the kept length
`j` is tried from the full run downwards; the kept run must be followed by a
literal dot and a TLD match. -/
def domSearch (r2 : List Char) : Nat → Option (Nat × Nat)
  | 0 => none
  | j + 1 =>
    if r2[j + 1]? == some '.' then
      let area := r2.drop (j + 2)
      match tldSearch area (area.takeWhile isTldChar).length with
      | some t => some (j + 1, t)
      | none => domSearch r2 j
    else domSearch r2 j

/-- Matcher for the email pattern of the source: a word boundary, a maximal
local-part run (its class excludes `@`, so no backtracking arises there),
a literal `@`, then domain-dot-TLD with the backtracking of `domSearch`. -/
def emailMatchAt (prev : Option Char) (s : List Char) : Option (List Char × List Char) :=
  if boundaryB prev s.head? then
    let loc := s.takeWhile isLocalChar
    if loc.isEmpty then none
    else
      match s.dropWhile isLocalChar with
      | '@' :: r2 =>
        let d := (r2.takeWhile isDomChar).length
        if d == 0 then none
        else
          match domSearch r2 d with
          | some (j, t) => some (loc ++ '@' :: r2.take (j + 1 + t), r2.drop (j + 1 + t))
          | none => none
      | _ => none
  else none

/-- The URL body class of the source: everything except whitespace,
angle brackets, double quote, braces, bar, backslash, caret, backtick and
square brackets. -/
def isUrlChar (c : Char) : Bool :=
  !(c == ' ' || c == '\t' || c == '\n' || c == '\r' || c == '\x0b' || c == '\x0c' ||
    c == '<' || c == '>' || c == '"' || c == '\x7b' || c == '\x7d' || c == '|' ||
    c == '\\' || c == '^' || c == '\x60' || c == '[' || c == ']')

/-- Consume a case-sensitive literal, returning the rest. -/
def eatCS : List Char → List Char → Option (List Char)
  | [], s => some s
  | _ :: _, [] => none
  | p :: ps, c :: cs => if p == c then eatCS ps cs else none

/-- Matcher for the URL pattern of the source: literal http, an optional s,
the literal separator, then a nonempty greedy run of URL-body characters.
No boundary assertions, case sensitive. -/
def urlMatchAt (_prev : Option Char) (s : List Char) : Option (List Char × List Char) :=
  match eatCS "http".data s with
  | none => none
  | some r1 =>
    let sr :=
      match r1 with
      | 's' :: rest => (['s'], rest)
      | _ => (([] : List Char), r1)
    match eatCS "://".data sr.2 with
    | none => none
    | some r3 =>
      let run := r3.takeWhile isUrlChar
      if run.isEmpty then none
      else some ("http".data ++ sr.1 ++ "://".data ++ run, r3.dropWhile isUrlChar)

/-- One 1-to-3-digit group followed by a literal dot.  The greedy digit run
must itself be 1–3 digits long: a longer run leaves a digit at the position
where the dot is required, for every backtracking choice. -/
def ipGroupDot (s : List Char) : Option (List Char × List Char) :=
  let run := s.takeWhile Char.isDigit
  if 1 ≤ run.length ∧ run.length ≤ 3 then
    match s.drop run.length with
    | '.' :: rest => some (run, rest)
    | _ => none
  else none

/-- Matcher for the IP-candidate pattern of the source: a word boundary,
three digit-group-dot repetitions, a final 1-to-3-digit group, and a word
boundary (digits are word characters, so the final boundary demands a
non-word follower or the end of input). -/
def ipMatchAt (prev : Option Char) (s : List Char) : Option (List Char × List Char) :=
  if boundaryB prev s.head? then
    match ipGroupDot s with
    | none => none
    | some (g1, r1) =>
      match ipGroupDot r1 with
      | none => none
      | some (g2, r2) =>
        match ipGroupDot r2 with
        | none => none
        | some (g3, r3) =>
          let run := r3.takeWhile Char.isDigit
          let rest := r3.dropWhile Char.isDigit
          if 1 ≤ run.length ∧ run.length ≤ 3 ∧ isWordOpt rest.head? = false then
            some (g1 ++ '.' :: (g2 ++ '.' :: (g3 ++ '.' :: run)), rest)
          else none
  else none

def CharMatcher : Type := Option Char → List Char → Option (List Char × List Char)

/-- The `g`-flag `exec` loop: find the leftmost match at or after the current
position, emit it, and resume right after its end (tracking the preceding
character for boundary tests).  The fuel argument only serves totality; each
step either consumes a nonempty match or advances one character. -/
def scanAux (m : CharMatcher) : Option Char → List Char → Nat → List (List Char)
  | _, _, 0 => []
  | prev, s, fuel + 1 =>
    match m prev s with
    | some (tok, rest) =>
      if tok.isEmpty then []
      else tok :: scanAux m tok.getLast? rest fuel
    | none =>
      match s with
      | [] => []
      | c :: cs => scanAux m (some c) cs fuel

def scanMatches (m : CharMatcher) (s : List Char) : List (List Char) :=
  scanAux m none s (s.length + 1)

structure Entity where
  type : String
  value : String
deriving DecidableEq

def apiKeyPass (s : List Char) : List (List Char) := scanMatches apiKeyMatchAt s

def emailPass (s : List Char) : List (List Char) := scanMatches emailMatchAt s

def urlPass (s : List Char) : List (List Char) := scanMatches urlMatchAt s

def ipCandidates (s : List Char) : List (List Char) := scanMatches ipMatchAt s

/-- `value.split(".")` on a character list. -/
def splitDotsAux (acc : List Char) : List Char → List (List Char)
  | [] => [acc.reverse]
  | '.' :: cs => acc.reverse :: splitDotsAux [] cs
  | c :: cs => splitDotsAux (c :: acc) cs

/-- `Number(g)` for the digit groups produced by the IP pattern. -/
def numOfDigits (g : List Char) : Nat :=
  g.foldl (fun a c => a * 10 + (c.toNat - '0'.toNat)) 0

/-- The numeric octet check of the source: every dot-separated group is an
integer between 0 and 255 (the lower bound is vacuous for digit groups). -/
def octetsValid (v : List Char) : Bool :=
  (splitDotsAux [] v).all (fun g => decide (numOfDigits g ≤ 255))

/-- `extractEntities`: the four detection passes in the fixed source order,
IP candidates being kept only when the octet check passes. -/
def extractEntities (text : String) : List Entity :=
  (apiKeyPass text.data).map (fun v => ⟨"api_key", String.mk v⟩)
    ++ (emailPass text.data).map (fun v => ⟨"email", String.mk v⟩)
    ++ (urlPass text.data).map (fun v => ⟨"url", String.mk v⟩)
    ++ ((ipCandidates text.data).filter octetsValid).map
        (fun v => ⟨"ip_address", String.mk v⟩)

/-! ## Capture patterns and `shouldCapture`
(src/unnamed/part_001 lines 383-411; the same pattern list is in
src/index.ts lines 141-156, whose `shouldCapture` has no entity-extraction
branch and corresponds to `entityExtractionEnabled = false` here apart from
the length gate).  None of the seven patterns contains anchors or boundary
assertions, so a pattern test is just: some suffix of the text matches. -/

def isSpaceJS (c : Char) : Bool :=
  c == ' ' || c == '\t' || c == '\n' || c == '\r' || c == '\x0b' || c == '\x0c'

def colonOrSpace (c : Char) : Bool := c == ':' || isSpaceJS c

/-- Case-insensitive literal word, returning the rest of the input. -/
def eatCIW (w : String) (s : List Char) : Option (List Char) :=
  (eatCI w.data s).map (fun pr => pr.2)

/-- One or more whitespace characters, greedy.  The continuations used below
always start with a non-space literal or a character class containing space,
and in the latter position a failed greedy run is re-tried by the explicit
fallback of the caller, so taking the maximal run is faithful. -/
def wsPlus (s : List Char) : Option (List Char) :=
  match s with
  | c :: cs => if isSpaceJS c then some (cs.dropWhile isSpaceJS) else none
  | [] => none

/-- A single character from a class. -/
def classCh (f : Char → Bool) (s : List Char) : Option (List Char) :=
  match s with
  | c :: cs => if f c then some cs else none
  | [] => none

/-- Ordered case-insensitive word alternation, returning the rest.  In every
pattern below, no alternative is a prefix of another alternative of the same
list, so committing to the first one that eats is faithful; the sole
prefix-overlapping pair (do / don't) is handled by explicit fallback. -/
def altCIW : List String → List Char → Option (List Char)
  | [], _ => none
  | w :: ws, s =>
    match eatCIW w s with
    | some r => some r
    | none => altCIW ws s

/-- The optional "is" group followed by colon-or-space, with the optional
group backtracked when the class fails after it. -/
def optIsClass (s : List Char) : Option (List Char) :=
  match (do
    let r1 ← wsPlus s
    let r2 ← eatCIW "is" r1
    classCh colonOrSpace r2) with
  | some r => some r
  | none => classCh colonOrSpace s

/-- remember, whitespace, optionally "that" and whitespace. -/
def pat1 (s : List Char) : Option (List Char) :=
  match eatCIW "remember" s with
  | none => none
  | some r1 =>
    match wsPlus r1 with
    | none => none
    | some r2 =>
      match (do
        let a ← eatCIW "that" r2
        wsPlus a) with
      | some r3 => some r3
      | none => some r2

/-- my-or-the, whitespace, then a personal-info word. -/
def pat2 (s : List Char) : Option (List Char) := do
  let r1 ← altCIW ["my", "the"] s
  let r2 ← wsPlus r1
  altCIW ["name", "email", "phone", "address", "preference"] r2

/-- important, optionally "ly", then colon-or-space (the optional part is
backtracked when the class fails after it). -/
def pat3 (s : List Char) : Option (List Char) :=
  match eatCIW "important" s with
  | none => none
  | some r1 =>
    match (do
      let a ← eatCIW "ly" r1
      classCh colonOrSpace a) with
    | some r => some r
    | none => classCh colonOrSpace r1

/-- always, whitespace, then use/prefer/want. -/
def pat4 (s : List Char) : Option (List Char) := do
  let r1 ← eatCIW "always" s
  let r2 ← wsPlus r1
  altCIW ["use", "prefer", "want"] r2

/-- do-or-don't, whitespace, then like/want/prefer; "do" is a prefix of
"don't", so the second alternative is tried with the full rest when the
first fails. -/
def pat5 (s : List Char) : Option (List Char) :=
  match (do
    let r1 ← eatCIW "do" s
    let r2 ← wsPlus r1
    altCIW ["like", "want", "prefer"] r2) with
  | some r => some r
  | none => do
    let r1 ← eatCIW "don\x27t" s
    let r2 ← wsPlus r1
    altCIW ["like", "want", "prefer"] r2

/-- credential words, optional "is", colon-or-space. -/
def pat6 (s : List Char) : Option (List Char) := do
  let r1 ← altCIW ["api", "key", "token", "password", "secret"] s
  optIsClass r1

/-- server words, optional "is", colon-or-space. -/
def pat7 (s : List Char) : Option (List Char) := do
  let r1 ← altCIW ["ssh", "server", "host", "ip", "port"] s
  optIsClass r1

def CAPTURE_PATTERNS : List (List Char → Option (List Char)) :=
  [pat1, pat2, pat3, pat4, pat5, pat6, pat7]

/-- `pattern.test(text)` for an anchor-free pattern: some suffix matches. -/
def anySuffix (p : List Char → Option (List Char)) : List Char → Bool
  | [] => (p []).isSome
  | c :: cs => (p (c :: cs)).isSome || anySuffix p cs

/-- `CAPTURE_PATTERNS.some((pattern) => pattern.test(text))`. -/
def captureSome (text : String) : Bool :=
  CAPTURE_PATTERNS.any (fun p => anySuffix p text.data)

/-- `shouldCapture` (src/unnamed/part_001 lines 393-411). -/
def shouldCapture (text : String) (entityExtractionEnabled : Bool) : Bool :=
  if text.length < 20 || 2000 < text.length then false
  else if entityExtractionEnabled && !(extractEntities text).isEmpty then true
  else captureSome text

/-! ## Auto-capture storage loop (src/index.ts lines 570-581)

The `agent_end` hook iterates over the first three accepted candidates; for
each it searches the store for the candidate text with limit 1 and threshold
0.95 and stores the candidate only when the search returns no hit.  The
search outcome is abstracted by the `hasHit` oracle, and the interaction with
the store is recorded as an event list. -/

structure SearchCall where
  query : String
  limit : Nat
  threshold : ℚ
deriving DecidableEq

inductive CapEvent
  | search (call : SearchCall)
  | storeMem (content : String)
deriving DecidableEq

def dedupThreshold : ℚ := 95 / 100

def captureLoop (hasHit : String → Bool) : List String → List CapEvent
  | [] => []
  | t :: ts =>
    if hasHit t then CapEvent.search ⟨t, 1, dedupThreshold⟩ :: captureLoop hasHit ts
    else CapEvent.search ⟨t, 1, dedupThreshold⟩ :: CapEvent.storeMem t :: captureLoop hasHit ts

def processCaptures (hasHit : String → Bool) (toCapture : List String) : List CapEvent :=
  captureLoop hasHit (toCapture.take 3)

def storedTexts (hasHit : String → Bool) (toCapture : List String) : List String :=
  (processCaptures hasHit toCapture).filterMap
    (fun e =>
      match e with
      | .storeMem c => some c
      | _ => none)

def searchCalls (hasHit : String → Bool) (toCapture : List String) : List SearchCall :=
  (processCaptures hasHit toCapture).filterMap
    (fun e =>
      match e with
      | .search c => some c
      | _ => none)

/-! ## Health status connectivity (src/index.ts line 222 and
src/unnamed/part_001 line 25) -/

def VALID_HEALTH_STATUSES : List String := ["ok", "healthy", "up"]

/-- The connectivity verdict of the `memory.status` gateway handler:
two case-sensitive string equalities. -/
def statusIsConnected (status : String) : Bool :=
  status == "ok" || status == "healthy"

/-- The acceptance rule as the specification states it: case-insensitive
membership in the valid token list.  For comparison with
`statusIsConnected`. -/
def specHealthAccepts (status : String) : Bool :=
  VALID_HEALTH_STATUSES.any (fun t => t == String.mk (status.data.map Char.toLower))

/-! ## Concrete operations used in closed evaluations -/

/-- Fails twice with an auth-classified message, then succeeds. -/
def opAuthTwice : Nat → Except String Nat := fun n =>
  if n < 2 then .error "MemoryRelay API error: 401 Unauthorized" else .ok 5

/-- Fails twice with a network-classified message, then succeeds. -/
def opNetTwice : Nat → Except String Nat := fun n =>
  if n < 2 then .error "ECONNREFUSED" else .ok 5

/-- Always fails with a network-classified message. -/
def opRefused : Nat → Except String Nat := fun _ => .error "ECONNREFUSED"

/-! ## Helper lemmas -/

lemma orDefault_some_pos (n d : Nat) (h : 1 ≤ n) : orDefault (some n) d = n := by
  simp only [orDefault]
  rw [if_neg (by omega)]

lemma applyFailures_low (m r : Nat) (ts : List Nat) :
    ∀ st : CBState, st.consecutiveFailures + ts.length < m →
      applyFailures m r st ts = ⟨st.consecutiveFailures + ts.length, st.openUntil⟩ := by
  induction ts with
  | nil => intro st _; simp [applyFailures]
  | cons t ts ih =>
    intro st h
    simp only [List.length_cons] at h
    have hc : ¬ m ≤ st.consecutiveFailures + 1 := by omega
    have hrec : recordFailureCB m r st t = ⟨st.consecutiveFailures + 1, st.openUntil⟩ := by
      simp [recordFailureCB, hc]
    have hstep : applyFailures m r st (t :: ts)
        = applyFailures m r ⟨st.consecutiveFailures + 1, st.openUntil⟩ ts := by
      simp [applyFailures, hrec]
    rw [hstep, ih ⟨st.consecutiveFailures + 1, st.openUntil⟩ (by simp; omega)]
    simp
    omega

lemma captureLoop_shape (hasHit : String → Bool) (l : List String) :
    captureLoop hasHit l
      = (l.map (fun t =>
          if hasHit t then [CapEvent.search ⟨t, 1, dedupThreshold⟩]
          else [CapEvent.search ⟨t, 1, dedupThreshold⟩, CapEvent.storeMem t])).flatten := by
  induction l with
  | nil => simp [captureLoop]
  | cons t ts ih =>
    by_cases h : hasHit t <;> simp [captureLoop, h, ih]

lemma captureLoop_searches (hasHit : String → Bool) (l : List String) :
    (captureLoop hasHit l).filterMap
        (fun e =>
          match e with
          | .search c => some c
          | _ => none)
      = l.map (fun t => (⟨t, 1, dedupThreshold⟩ : SearchCall)) := by
  induction l with
  | nil => simp [captureLoop]
  | cons t ts ih =>
    by_cases h : hasHit t <;> simp [captureLoop, h, ih]

lemma captureLoop_stores (hasHit : String → Bool) (l : List String) :
    (captureLoop hasHit l).filterMap
        (fun e =>
          match e with
          | .storeMem c => some c
          | _ => none)
      = l.filter (fun t => !(hasHit t)) := by
  induction l with
  | nil => simp [captureLoop]
  | cons t ts ih =>
    by_cases h : hasHit t <;> simp [captureLoop, h, ih, List.filter_cons]

/-! ## Claim theorems -/

/-- C1 (amended: a strictly positive cooldown is required — with
`resetTimeoutMs = 0` the breaker never reports open, and a deadline of `0`
is treated as unset by JavaScript truthiness): starting closed, after the
`maxFailures`-th consecutive `recordFailure()` at time `t` the breaker state
is counter `maxFailures` with deadline `t + resetTimeoutMs`; every `isOpen()`
strictly before the deadline returns true and leaves the state unchanged;
and any `isOpen()` at or after the deadline returns false and atomically
clears the state, equivalently to `recordSuccess()`. -/
theorem circuitBreaker_trip_and_lazy_reset (m r : Nat) (pre : List Nat) (t : Nat)
    (st : CBState) (hm : pre.length + 1 = m) (hr : 1 ≤ r)
    (hst : st = applyFailures m r CBState.initial (pre ++ [t])) :
    st = ⟨m, some (t + r)⟩ ∧
    (∀ now, now < t + r → isOpenCB st now = (true, st)) ∧
    (∀ now, t + r ≤ now →
      isOpenCB st now = (false, CBState.initial) ∧ recordSuccessCB st = CBState.initial) := by
  subst hm
  have hpre : applyFailures (pre.length + 1) r CBState.initial pre
      = ⟨pre.length, none⟩ := by
    have := applyFailures_low (pre.length + 1) r pre CBState.initial (by simp [CBState.initial])
    simpa [CBState.initial] using this
  have hfull : st = ⟨pre.length + 1, some (t + r)⟩ := by
    rw [hst]
    simp only [applyFailures] at hpre ⊢
    rw [List.foldl_append, hpre]
    simp [recordFailureCB]
  refine ⟨hfull, ?_, ?_⟩
  · intro now hn
    rw [hfull]
    simp only [isOpenCB]
    rw [if_pos ⟨by omega, hn⟩]
  · intro now hn
    rw [hfull]
    simp only [isOpenCB]
    rw [if_neg (by omega), if_pos ⟨by omega, hn⟩]
    exact ⟨rfl, rfl⟩

/-- C1 witness: threshold 3, cooldown 60000, failures at 10, 20, 30; open at
instant 60000, closed and reset at the deadline 60030. -/
theorem circuitBreaker_trip_and_lazy_reset_witness :
    isOpenCB ⟨3, some 60030⟩ 60000 = (true, ⟨3, some 60030⟩) ∧
    isOpenCB ⟨3, some 60030⟩ 60030 = (false, CBState.initial) := by
  have h := circuitBreaker_trip_and_lazy_reset 3 60000 [10, 20] 30 ⟨3, some 60030⟩
    (by decide) (by decide) (by decide)
  exact ⟨h.2.1 60000 (by decide), (h.2.2 60030 (by decide)).1⟩

/-- C1 counterexample: with cooldown `resetTimeoutMs = 0` and threshold 1,
the threshold-th `recordFailure()` at time 5 sets the deadline, yet the
immediately following `isOpen()` (same instant) returns false — the claim
asserts it returns true immediately for every configured cooldown. -/
theorem circuitBreaker_zero_cooldown_never_open :
    applyFailures 1 0 CBState.initial [5] = ⟨1, some 5⟩ ∧
    (isOpenCB (applyFailures 1 0 CBState.initial [5]) 5).1 = false := by decide

/-- C2 (amended: the claim holds for operations whose first two failures are
classified other than AUTH, and for a configured base delay of at least 1 —
an AUTH-classified failure aborts after one invocation, and a configured
base delay of 0 is replaced by the default 1000 through the JavaScript
fallback): with retry enabled, maxRetries 3 and base delay `b ≥ 1`, an
operation failing twice then succeeding yields the third invocation's
result, exactly 3 invocations, sleeps of `b` then `2*b`, and breaker reports
failure, failure, success. -/
theorem requestWithRetry_two_failures_then_success (α : Type)
    (op : Nat → Except String α) (e1 e2 : String) (v : α) (b : Nat)
    (h0 : op 0 = .error e1) (h1 : op 1 = .error e2) (h2 : op 2 = .ok v)
    (c1 : classifyError e1 ≠ .auth) (c2 : classifyError e2 ≠ .auth)
    (hb : 1 ≤ b) :
    requestWithRetry op (some 3) (some b)
      = ⟨.ok v, 3, [b, 2 * b], [.failure, .failure, .success]⟩ := by
  simp only [requestWithRetry, orDefault_some_pos b 1000 hb,
    orDefault_some_pos 3 3 (by omega)]
  simp [retryAux, h0, h1, h2, c1, c2, pow_succ, Nat.mul_comm]

/-- C2 witness: an operation failing twice with a non-auth message then
returning 7, base delay 10. -/
theorem requestWithRetry_two_failures_then_success_witness :
    requestWithRetry (fun n => if n < 2 then .error "boom" else .ok (7 : Nat))
      (some 3) (some 10)
      = ⟨.ok 7, 3, [10, 20], [.failure, .failure, .success]⟩ :=
  requestWithRetry_two_failures_then_success Nat _ "boom" "boom" 7 10 rfl rfl rfl
    (by decide) (by decide) (by decide)

/-- C2 counterexample: (a) an operation failing twice with status-401
messages then succeeding is invoked once, not 3 times; (b) with configured
base delay 0 the two suspensions are 1000 and 2000 ms, not 0 and 0. -/
theorem requestWithRetry_two_failures_claim_false :
    (requestWithRetry opAuthTwice (some 3) (some 100)).calls = 1 ∧
    (requestWithRetry opNetTwice (some 3) (some 0)).sleeps = [1000, 2000] := by decide

/-- C3: a first failure classified AUTH yields exactly one invocation, one
breaker failure report, no sleep, and re-raises that failure — for every
configured maxRetries and base delay. -/
theorem requestWithRetry_auth_single (α : Type) (op : Nat → Except String α)
    (e : String) (mrc bdc : Option Nat)
    (h0 : op 0 = .error e) (ha : classifyError e = .auth) :
    requestWithRetry op mrc bdc = ⟨.error e, 1, [], [.failure]⟩ := by
  simp only [requestWithRetry]
  simp [retryAux, h0, ha]

/-- C3 witness: a 401-classified failure with maxRetries 3. -/
theorem requestWithRetry_auth_single_witness :
    requestWithRetry opAuthTwice (some 3) (some 1000)
      = ⟨.error "MemoryRelay API error: 401 Unauthorized", 1, [], [.failure]⟩ :=
  requestWithRetry_auth_single Nat opAuthTwice
    "MemoryRelay API error: 401 Unauthorized" (some 3) (some 1000) rfl (by decide)

/-- C4 (amended: classification is by substring of the error message, first
match wins, in the order 401/403, 429, 500/502/503, ECONNREFUSED/timeout,
400, default SERVER.  Statuses 500, 502 and 503 classify as SERVER, and
plain 501 and 504 messages fall to the SERVER default, but a ≥500-status
message that contains a lowercase timeout or connection-refused indicator
and none of the 500/502/503 tokens classifies as NETWORK). -/
theorem classifyError_substring_chain :
    (∀ msg : String, occursIn msg "401" = true ∨ occursIn msg "403" = true →
      classifyError msg = .auth) ∧
    (∀ msg : String, occursIn msg "401" = false → occursIn msg "403" = false →
      occursIn msg "429" = true → classifyError msg = .rateLimit) ∧
    (∀ msg : String, occursIn msg "401" = false → occursIn msg "403" = false →
      occursIn msg "429" = false →
      (occursIn msg "500" = true ∨ occursIn msg "502" = true ∨
        occursIn msg "503" = true) →
      classifyError msg = .server) ∧
    (∀ msg : String, occursIn msg "401" = false → occursIn msg "403" = false →
      occursIn msg "429" = false → occursIn msg "500" = false →
      occursIn msg "502" = false → occursIn msg "503" = false →
      (occursIn msg "ECONNREFUSED" = true ∨ occursIn msg "timeout" = true) →
      classifyError msg = .network) ∧
    (∀ msg : String, occursIn msg "401" = false → occursIn msg "403" = false →
      occursIn msg "429" = false → occursIn msg "500" = false →
      occursIn msg "502" = false → occursIn msg "503" = false →
      occursIn msg "ECONNREFUSED" = false → occursIn msg "timeout" = false →
      occursIn msg "400" = true → classifyError msg = .validation) ∧
    (∀ msg : String, occursIn msg "401" = false → occursIn msg "403" = false →
      occursIn msg "429" = false → occursIn msg "500" = false →
      occursIn msg "502" = false → occursIn msg "503" = false →
      occursIn msg "ECONNREFUSED" = false → occursIn msg "timeout" = false →
      occursIn msg "400" = false → classifyError msg = .server) ∧
    (classifyError (mkErrorMessage 500 "Internal Server Error" none) = .server ∧
      classifyError (mkErrorMessage 502 "Bad Gateway" none) = .server ∧
      classifyError (mkErrorMessage 503 "Service Unavailable" none) = .server ∧
      classifyError (mkErrorMessage 501 "Not Implemented" none) = .server ∧
      classifyError (mkErrorMessage 504 "Gateway Timeout" none) = .server ∧
      classifyError (mkErrorMessage 504 "Gateway Timeout" (some "upstream timeout"))
        = .network) := by
  refine ⟨?_, ?_, ?_, ?_, ?_, ?_, by decide⟩
  · intro msg h
    rcases h with h | h <;> simp [classifyError, h]
  · intro msg h1 h2 h3
    simp [classifyError, h1, h2, h3]
  · intro msg h1 h2 h3 h
    rcases h with h | h | h <;> simp [classifyError, h1, h2, h3, h]
  · intro msg h1 h2 h3 h4 h5 h6 h
    rcases h with h | h <;> simp [classifyError, h1, h2, h3, h4, h5, h6, h]
  · intro msg h1 h2 h3 h4 h5 h6 h7 h8 h9
    simp [classifyError, h1, h2, h3, h4, h5, h6, h7, h8, h9]
  · intro msg h1 h2 h3 h4 h5 h6 h7 h8 h9
    simp [classifyError, h1, h2, h3, h4, h5, h6, h7, h8, h9]

/-- C4 witness: the first chain case applied to a message containing 401. -/
theorem classifyError_substring_chain_witness :
    classifyError "x401" = .auth :=
  classifyError_substring_chain.1 "x401" (Or.inl (by decide))

/-- C4 counterexample: a 504-status failure whose message carries a timeout
indicator classifies as NETWORK, not SERVER — the claim asserts every
status ≥ 500 classifies as SERVER regardless of timeout indicators. -/
theorem classifyError_504_timeout_is_network :
    classifyError (mkErrorMessage 504 "Gateway Timeout" (some "upstream timeout"))
        = .network ∧
    ErrorType.network ≠ ErrorType.server := by decide

/-- C5 (amended: with retry disabled the operation runs exactly once and its
outcome is propagated unchanged, but the circuit breaker is NOT updated on
this path — the breaker calls live only inside `requestWithRetry`). -/
theorem request_retry_disabled_once_no_breaker (α : Type)
    (op : Nat → Except String α) (rc : RetryConfig) (h : rc.enabled = false) :
    request op (some rc) = ⟨op 0, 1, [], []⟩ := by
  simp [request, h]

/-- C5 witness: retry disabled on a succeeding operation. -/
theorem request_retry_disabled_once_no_breaker_witness :
    request (fun _ => (.ok 1 : Except String Nat)) (some ⟨false, 3, 1000⟩)
      = ⟨.ok 1, 1, [], []⟩ :=
  request_retry_disabled_once_no_breaker Nat _ ⟨false, 3, 1000⟩ rfl

/-- C5 counterexample: with retry disabled, a failing request produces no
breaker notification at all — the claim asserts `recordFailure` is still
reported. -/
theorem request_disabled_failure_not_reported :
    (request opRefused (some ⟨false, 3, 1000⟩)).result = .error "ECONNREFUSED" ∧
    (request opRefused (some ⟨false, 3, 1000⟩)).events = [] ∧
    BreakerEvent.failure ∉ (request opRefused (some ⟨false, 3, 1000⟩)).events := by
  refine ⟨rfl, rfl, by simp [request, opRefused]⟩

/-- C10: every `recordFailure()` that leaves the counter at or above the
threshold — including while already open — sets the deadline to the current
time plus the cooldown; when the previous deadline came from an earlier
failure time, the new deadline lies strictly beyond it. -/
theorem recordFailure_renews_deadline (m r : Nat) (st : CBState) (now : Nat)
    (h : m ≤ st.consecutiveFailures + 1) :
    (recordFailureCB m r st now).openUntil = some (now + r) ∧
    (∀ t0, st.openUntil = some (t0 + r) → t0 < now → t0 + r < now + r) := by
  refine ⟨?_, ?_⟩
  · simp [recordFailureCB, h]
  · intro t0 _ ht
    omega

/-- C10 witness: an already-open breaker (threshold 3, cooldown 60, old
deadline 70 from failure time 10) failing again at time 20 moves the
deadline to 80 > 70. -/
theorem recordFailure_renews_deadline_witness :
    (recordFailureCB 3 60 ⟨3, some 70⟩ 20).openUntil = some 80 ∧ (70 : Nat) < 80 := by
  have h := recordFailure_renews_deadline 3 60 ⟨3, some 70⟩ 20 (by decide)
  exact ⟨h.1, h.2 10 rfl (by decide)⟩

/-- C6: `extractEntities` returns the detected entities grouped by pass in
the fixed order api_key, email, url, ip_address (left-to-right within each
pass by the scan construction); an IP candidate is emitted iff every
dot-separated group is in [0,255]; the api-key/email example yields exactly
those two entities in that order; and the out-of-range IP example yields
no ip_address entity. -/
theorem extractEntities_passes_and_examples :
    (∀ text : String,
      extractEntities text
        = (apiKeyPass text.data).map (fun v => ⟨"api_key", String.mk v⟩)
            ++ (emailPass text.data).map (fun v => ⟨"email", String.mk v⟩)
            ++ (urlPass text.data).map (fun v => ⟨"url", String.mk v⟩)
            ++ ((ipCandidates text.data).filter octetsValid).map
                (fun v => ⟨"ip_address", String.mk v⟩)) ∧
    (∀ (text : String) (v : List Char),
      (⟨"ip_address", String.mk v⟩ : Entity) ∈ extractEntities text ↔
        ∃ c ∈ ipCandidates text.data, octetsValid c = true ∧ String.mk c = String.mk v) ∧
    extractEntities "key mem_prod_abcdEFGH12345678 and email a@b.co"
      = [⟨"api_key", "mem_prod_abcdEFGH12345678"⟩, ⟨"email", "a@b.co"⟩] ∧
    (extractEntities "ip 999.999.1.1").filter (fun e => e.type == "ip_address") = [] := by
  refine ⟨fun text => rfl, ?_, by decide, by decide⟩
  intro text v
  simp [extractEntities, Entity.mk.injEq, List.mem_filter, and_assoc]

/-- C7: `shouldCapture` rejects every text shorter than 20 or longer than
2000 characters; within bounds it accepts whenever extraction is enabled and
an entity is found, and otherwise equals the fixed-pattern test; the
30-character bare-email example is accepted with extraction enabled and
rejected with it disabled. -/
theorem shouldCapture_gates :
    (∀ (text : String) (flag : Bool),
      text.length < 20 ∨ 2000 < text.length → shouldCapture text flag = false) ∧
    (∀ text : String, 20 ≤ text.length → text.length ≤ 2000 →
      extractEntities text ≠ [] → shouldCapture text true = true) ∧
    (∀ (text : String) (flag : Bool), 20 ≤ text.length → text.length ≤ 2000 →
      (flag = false ∨ extractEntities text = []) →
      shouldCapture text flag = captureSome text) ∧
    shouldCapture "backup.contact9@example-ab.com" true = true ∧
    shouldCapture "backup.contact9@example-ab.com" false = false := by
  refine ⟨?_, ?_, ?_, by decide, by decide⟩
  · intro text flag h
    rcases h with h | h <;> simp [shouldCapture, h]
  · intro text h1 h2 hne
    simp only [shouldCapture]
    rw [if_neg (by simp; omega)]
    rw [if_pos (by simp [hne])]
  · intro text flag h1 h2 h
    simp only [shouldCapture]
    rw [if_neg (by simp; omega)]
    rcases h with h | h
    · rw [h]
      simp
    · rw [if_neg (by simp [h])]

/-- C7 witness: a 9-character text is rejected although it matches a capture
pattern shape, and the concrete gates are discharged at the bare-email
example. -/
theorem shouldCapture_gates_witness :
    shouldCapture "important" true = false :=
  shouldCapture_gates.1 "important" true (Or.inl (by decide))

/-- C8: in the auto-capture flow, the first three accepted candidates are
each looked up with limit 1 and threshold 0.95 before storing, a candidate
is stored exactly when its lookup returns no hit, at most 3 candidates are
stored per turn, and the stored candidates preserve the original order. -/
theorem autoCapture_dedup_and_cap :
    (∀ (hasHit : String → Bool) (toCapture : List String),
      processCaptures hasHit toCapture
        = ((toCapture.take 3).map (fun t =>
            if hasHit t then [CapEvent.search ⟨t, 1, dedupThreshold⟩]
            else [CapEvent.search ⟨t, 1, dedupThreshold⟩, CapEvent.storeMem t])).flatten) ∧
    (∀ (hasHit : String → Bool) (toCapture : List String),
      searchCalls hasHit toCapture
        = (toCapture.take 3).map (fun t => (⟨t, 1, dedupThreshold⟩ : SearchCall))) ∧
    (∀ (hasHit : String → Bool) (toCapture : List String),
      storedTexts hasHit toCapture = (toCapture.take 3).filter (fun t => !(hasHit t))) ∧
    (∀ (hasHit : String → Bool) (toCapture : List String),
      (storedTexts hasHit toCapture).length ≤ 3) ∧
    (∀ (hasHit : String → Bool) (toCapture : List String),
      (storedTexts hasHit toCapture).Sublist toCapture) ∧
    dedupThreshold = 95 / 100 := by
  have hstore : ∀ (hasHit : String → Bool) (toCapture : List String),
      storedTexts hasHit toCapture = (toCapture.take 3).filter (fun t => !(hasHit t)) :=
    fun h l => captureLoop_stores h (l.take 3)
  refine ⟨fun h l => captureLoop_shape h (l.take 3),
    fun h l => captureLoop_searches h (l.take 3), hstore, ?_, ?_, rfl⟩
  · intro h l
    rw [hstore]
    calc ((l.take 3).filter _).length ≤ (l.take 3).length := List.length_filter_le _ _
      _ ≤ 3 := by simp [List.length_take]
  · intro h l
    rw [hstore]
    exact (List.filter_sublist _).trans (List.take_sublist 3 l)

/-- C9: the gateway connectivity verdict accepts exactly the case-sensitive
tokens "ok" and "healthy"; it rejects "up" (a member of the repository's own
`VALID_HEALTH_STATUSES` list) and any differently-cased token, both of which
the documented case-insensitive rule accepts. -/
theorem statusIsConnected_rejects_up :
    statusIsConnected "up" = false ∧ statusIsConnected "OK" = false ∧
    statusIsConnected "ok" = true ∧ statusIsConnected "healthy" = true ∧
    "up" ∈ VALID_HEALTH_STATUSES ∧
    specHealthAccepts "up" = true ∧ specHealthAccepts "OK" = true := by decide

end MemoryRelay
